import Mathlib

/-!
A verification development for the folder-organizer utility
(`folder_organizer.py`).  The Python class `FolderOrganizer` is shallowly
embedded: filesystem paths become a structure of directory components plus a
basename split into stem and suffix, the filesystem becomes an explicit state
(a list of directories and a list of files), and each method becomes a pure
Lean function over that state.  Exceptions raised by `shutil.move` /
`shutil.copy2` and by `stat` are modelled with explicit error oracles
(`Option String` / `Except String`), mirroring the catch-and-continue
structure of the source.
-/

/-! ### String helpers

`str_lower` models Python `str.lower()` on the ASCII range (the source only
compares ASCII extension and pattern strings).  `substr_in` models the Python
`in` substring operator.  `chars_lt` / `parts_lt` model the lexicographic
comparison used by `sorted()` over `pathlib.Path` objects, which compares the
tuple of path parts componentwise. -/

def str_lower (s : String) : String := ⟨s.data.map Char.toLower⟩

def list_starts : List Char → List Char → Bool
  | [], _ => true
  | _ :: _, [] => false
  | a :: as, b :: bs => a == b && list_starts as bs

def substr_in_aux (pat : List Char) : List Char → Bool
  | [] => list_starts pat []
  | c :: t => list_starts pat (c :: t) || substr_in_aux pat t

/-- Python `needle in hay` for strings. -/
def substr_in (needle hay : String) : Bool := substr_in_aux needle.data hay.data

def chars_lt : List Char → List Char → Bool
  | [], [] => false
  | [], _ :: _ => true
  | _ :: _, [] => false
  | a :: as, b :: bs => if a = b then chars_lt as bs else decide (a < b)

def str_lt (a b : String) : Bool := chars_lt a.data b.data

def parts_lt : List String → List String → Bool
  | [], [] => false
  | [], _ :: _ => true
  | _ :: _, [] => false
  | a :: as, b :: bs => if a = b then parts_lt as bs else str_lt a b

/-! ### Data model -/

/-- A file basename, split as `pathlib` does into `stem` and `suffix`
(the suffix carries its leading dot; it is empty when there is no dot).
Python `Path.name` is `stem ++ suffix`. -/
structure FileName where
  stem : String
  suffix : String
deriving DecidableEq, Repr

def FileName.name (b : FileName) : String := b.stem ++ b.suffix

/-- A filesystem path: directory components plus a basename. -/
structure FsPath where
  dir : List String
  base : FileName
deriving DecidableEq, Repr

def FsPath.name (p : FsPath) : String := p.base.name

/-- `str(path)`: components joined by the separator. -/
def FsPath.render (p : FsPath) : String :=
  String.intercalate "/" (p.dir ++ [p.name])

/-- Explicit filesystem state: the set of directories and the set of regular
files, as lists. -/
structure Fs where
  dirs : List (List String)
  files : List FsPath
deriving DecidableEq, Repr

/-- `Path.mkdir(parents=True, exist_ok=True)`: idempotent creation. -/
def mkdirp (fs : Fs) (d : List String) : Fs :=
  if d ∈ fs.dirs then fs else { fs with dirs := fs.dirs ++ [d] }

def add_file (fs : Fs) (p : FsPath) : Fs := { fs with files := fs.files ++ [p] }

def remove_file (fs : Fs) (p : FsPath) : Fs := { fs with files := fs.files.erase p }

/-- Constructor-time configuration of `FolderOrganizer`. -/
structure Config where
  source_dir : List String
  target_dir : List String
  dry_run : Bool
  copy_files : Bool
deriving DecidableEq, Repr

/-- Result of `Path.stat()`: size in bytes, modification and creation times. -/
structure FileStat where
  size : Nat
  mtime : Nat
  ctime : Nat
deriving DecidableEq, Repr

/-- The logger / console side channel of a run. -/
inductive LogEvent where
  | would_move (src tgt : FsPath)
  | copied (src_name folder : String)
  | moved (src_name folder : String)
  | move_failed (src_name reason : String)
  | stat_failed (src_name reason : String)
deriving DecidableEq, Repr

/-- The mutable state of one `FolderOrganizer` run: the filesystem plus the
`moved_files` and `failed_files` lists and the emitted log. -/
structure OrgState where
  fs : Fs
  moved_files : List FsPath
  failed_files : List FsPath
  log : List LogEvent
deriving DecidableEq, Repr

/-! ### Pre-flight check (`FolderOrganizer.__init__`) -/

inductive InitOutcome where
  | ok
  | file_not_found_error
deriving DecidableEq, Repr

/-- `__init__` raises `FileNotFoundError` exactly when
`self.source_dir.exists()` is false; `Path.exists()` is true for any
existing filesystem object, directory or not, and no directory check is
performed. -/
def folder_organizer_init (source_exists : Bool) (source_is_dir : Bool) :
    InitOutcome :=
  if !source_exists then .file_not_found_error else .ok

/-! ### Collision resolution (`_move_file` while-loop) -/

/-- The `counter`-th candidate target name: candidate 0 is
`target_dir / name`, candidate `n+1` is `target_dir / (stem_{n+1} ++ suffix)`
built from the stem and suffix of the original target. -/
def nth_candidate (dir : List String) (base : FileName) : Nat → FsPath
  | 0 => ⟨dir, base⟩
  | Nat.succ n => ⟨dir, ⟨base.stem ++ "_" ++ toString (n + 1), base.suffix⟩⟩

def find_free_aux (files : List FsPath) (dir : List String) (base : FileName) :
    Nat → Nat → FsPath
  | 0, k => nth_candidate dir base k
  | Nat.succ fuel, k =>
    if nth_candidate dir base k ∈ files then find_free_aux files dir base fuel (k + 1)
    else nth_candidate dir base k

/-- First free candidate name: the `while target_path.exists()` loop.  The
fuel `files.length + 1` suffices because the candidates are pairwise
distinct, so one of the first `files.length + 1` is outside `files`. -/
def find_free (files : List FsPath) (dir : List String) (base : FileName) : FsPath :=
  find_free_aux files dir base (files.length + 1) 0

/-! ### `_move_file` -/

/-- `FolderOrganizer._move_file`.  `err` is the exception oracle for the
`shutil` call: `none` means the copy/move succeeds, `some reason` means it
raises.  Returns the updated state and the boolean the method returns. -/
def move_file (cfg : Config) (err : Option String) (st : OrgState)
    (source_path : FsPath) (target_folder : String) : OrgState × Bool :=
  let target_dir : List String := cfg.target_dir ++ [target_folder]
  let fs1 := if cfg.dry_run then st.fs else mkdirp st.fs target_dir
  let target_path : FsPath :=
    if cfg.dry_run then ⟨target_dir, source_path.base⟩
    else find_free fs1.files target_dir source_path.base
  if cfg.dry_run then
    ({ st with log := st.log ++ [.would_move source_path target_path] }, true)
  else
    match err with
    | some reason =>
      ({ st with fs := fs1,
                 failed_files := st.failed_files ++ [source_path],
                 log := st.log ++ [.move_failed source_path.name reason] }, false)
    | none =>
      let fs2 :=
        if cfg.copy_files then add_file fs1 target_path
        else add_file (remove_file fs1 source_path) target_path
      let ev :=
        if cfg.copy_files then LogEvent.copied source_path.name target_folder
        else LogEvent.moved source_path.name target_folder
      ({ st with fs := fs2,
                 moved_files := st.moved_files ++ [target_path],
                 log := st.log ++ [ev] }, true)

/-! ### Classifiers -/

/-- `FolderOrganizer.DEFAULT_CATEGORIES`, in declared order. -/
def DEFAULT_CATEGORIES : List (String × List String) :=
  [("Images", [".jpg", ".jpeg", ".png", ".gif", ".bmp", ".tiff", ".webp", ".svg", ".ico", ".heic"]),
   ("Documents", [".pdf", ".doc", ".docx", ".txt", ".rtf", ".odt", ".pages"]),
   ("Spreadsheets", [".xls", ".xlsx", ".csv", ".ods", ".numbers"]),
   ("Presentations", [".ppt", ".pptx", ".odp", ".key"]),
   ("Videos", [".mp4", ".avi", ".mkv", ".mov", ".wmv", ".flv", ".webm", ".m4v"]),
   ("Audio", [".mp3", ".wav", ".flac", ".aac", ".ogg", ".wma", ".m4a"]),
   ("Archives", [".zip", ".rar", ".7z", ".tar", ".gz", ".bz2", ".xz"]),
   ("Code", [".py", ".js", ".html", ".css", ".cpp", ".java", ".php", ".rb", ".go", ".rs"]),
   ("Executables", [".exe", ".msi", ".deb", ".rpm", ".dmg", ".pkg", ".app"]),
   ("Fonts", [".ttf", ".otf", ".woff", ".woff2", ".eot"])]

def first_category (file_ext : String) : List (String × List String) → String
  | [] => "Others"
  | (category, extensions) :: rest =>
    if file_ext ∈ extensions then category else first_category file_ext rest

/-- Per-file classification of `organize_by_type`: the lowercased suffix is
looked up in declared order, first category whose extension list contains it
wins, otherwise `"Others"`. -/
def classify_by_type (categories : List (String × List String)) (p : FsPath) : String :=
  first_category (str_lower p.base.suffix) categories

/-- Per-file classification of `organize_by_date`: the folder name is the
chosen timestamp rendered through the caller-supplied `strftime` template,
abstracted as a format function. -/
def classify_by_date (date_format : Nat → String) (timestamp : Nat) : String :=
  date_format timestamp

/-- `min_size <= file_size < max_size`; an upper bound of `none` models
`float('inf')` in the default table. -/
def in_size_range (min_size : Nat) (max_size : Option Nat) (file_size : Nat) : Bool :=
  decide (min_size ≤ file_size) &&
    match max_size with
    | none => true
    | some m => decide (file_size < m)

/-- The default `size_ranges` table, in declared order. -/
def default_size_ranges : List (String × Nat × Option Nat) :=
  [("Small (< 1MB)", 0, some (1024 * 1024)),
   ("Medium (1-10MB)", 1024 * 1024, some (10 * 1024 * 1024)),
   ("Large (10-100MB)", 10 * 1024 * 1024, some (100 * 1024 * 1024)),
   ("Very Large (> 100MB)", 100 * 1024 * 1024, none)]

def first_size_range (file_size : Nat) : List (String × Nat × Option Nat) → String
  | [] => "Unknown Size"
  | (range_name, min_size, max_size) :: rest =>
    if in_size_range min_size max_size file_size then range_name
    else first_size_range file_size rest

/-- Per-file classification of `organize_by_size`: first declared range
containing the size wins, otherwise `"Unknown Size"`. -/
def classify_by_size (size_ranges : List (String × Nat × Option Nat))
    (file_size : Nat) : String :=
  first_size_range file_size size_ranges

def first_pattern (filename : String) : List (String × String) → String
  | [] => "Others"
  | (folder_name, pat) :: rest =>
    if substr_in (str_lower pat) filename then folder_name
    else first_pattern filename rest

/-- Per-file classification of `organize_by_name_pattern`: first folder whose
lowercased pattern occurs in the lowercased filename wins, else `"Others"`. -/
def classify_by_name_pattern (patterns : List (String × String)) (p : FsPath) : String :=
  first_pattern (str_lower p.name) patterns

/-! ### Custom rules (`_apply_custom_rules`) -/

/-- The `conditions` object of one rule; a `none` field models an absent
JSON key. The `size_range` upper bound `none` models `float('inf')`. -/
structure RuleConditions where
  extensions : Option (List String)
  name_contains : Option String
  size_range : Option (Nat × Option Nat)
deriving DecidableEq, Repr

/-- One entry of the `rules` list; `folder := none` models a missing
`folder` key, read back with default `'Others'`. -/
structure CustomRule where
  folder : Option String
  conditions : RuleConditions
deriving DecidableEq, Repr

/-- The parsed rules document: `default_folder := none` models a missing
`default_folder` key, read back with default `'Others'`. -/
structure CustomRules where
  default_folder : Option String
  rules : List CustomRule
deriving DecidableEq, Repr

/-- The `match` flag of `_apply_custom_rules` for one rule: every present
condition must hold, absent conditions are vacuously true.  The size check is
inclusive on both ends. -/
def rule_matches (filename file_ext : String) (file_size : Nat)
    (c : RuleConditions) : Bool :=
  (match c.extensions with
   | none => true
   | some exts => decide (file_ext ∈ exts)) &&
  (match c.name_contains with
   | none => true
   | some pat => substr_in (str_lower pat) filename) &&
  (match c.size_range with
   | none => true
   | some (min_size, max_size) =>
     decide (min_size ≤ file_size) &&
       match max_size with
       | none => true
       | some m => decide (file_size ≤ m))

def first_rule (filename file_ext : String) (file_size : Nat) :
    List CustomRule → Option CustomRule
  | [] => none
  | r :: rest =>
    if rule_matches filename file_ext file_size r.conditions then some r
    else first_rule filename file_ext file_size rest

/-- `FolderOrganizer._apply_custom_rules`: rules are scanned in declaration
order, the first full match returns its folder (default `'Others'` for a
missing key); no match returns the configured default folder, itself
defaulting to `'Others'`. -/
def apply_custom_rules (rs : CustomRules) (p : FsPath) (file_size : Nat) : String :=
  let filename := str_lower p.name
  let file_ext := str_lower p.base.suffix
  match first_rule filename file_ext file_size rs.rules with
  | some r => r.folder.getD "Others"
  | none => rs.default_folder.getD "Others"

/-! ### Enumeration (`get_files`) -/

/-- `item.name.startswith('.')`. -/
def is_hidden (p : FsPath) : Bool := list_starts ['.'] p.name.data

/-- Whether a file lies under the source root: exactly in it when not
recursive, anywhere beneath it (the `**/*` glob) when recursive. -/
def under_root (recursive : Bool) (root : List String) (p : FsPath) : Bool :=
  if recursive then decide (root <+: p.dir) else decide (p.dir = root)

def path_lt (p q : FsPath) : Bool :=
  parts_lt (p.dir ++ [p.name]) (q.dir ++ [q.name])

def insert_sorted (x : FsPath) : List FsPath → List FsPath
  | [] => [x]
  | y :: t => if path_lt y x then y :: insert_sorted x t else x :: y :: t

def sort_files : List FsPath → List FsPath
  | [] => []
  | x :: t => insert_sorted x (sort_files t)

/-- `FolderOrganizer.get_files`: the files under the source root, hidden
files dropped unless requested, in sorted order. -/
def get_files (fs : Fs) (source_dir : List String)
    (recursive include_hidden : Bool) : List FsPath :=
  sort_files (fs.files.filter
    (fun p => under_root recursive source_dir p && (include_hidden || !is_hidden p)))

/-! ### The organize drivers -/

/-- The per-run statistics dict: insertion-ordered folder counts. -/
def bump_stat (stats : List (String × Nat)) (k : String) : List (String × Nat) :=
  match stats with
  | [] => [(k, 1)]
  | (k0, n) :: t => if k0 = k then (k0, n + 1) :: t else (k0, n) :: bump_stat t k

/-- One iteration of an organize loop once the target folder is known:
`_move_file` then `stats[target_folder] = stats.get(target_folder, 0) + 1`
on success. -/
def org_step (cfg : Config) (err : FsPath → Option String)
    (acc : OrgState × List (String × Nat)) (p : FsPath) (folder : String) :
    OrgState × List (String × Nat) :=
  let r := move_file cfg (err p) acc.1 p folder
  (r.1, if r.2 then bump_stat acc.2 folder else acc.2)

/-- The common shape of every `organize_by_*` loop.  `folder_of` computes the
destination folder for a file, or fails like a `stat` call inside the `try`
of the date/size strategies; a failure appends the file to `failed_files`
and continues with the next file. -/
def organize_fold (cfg : Config) (err : FsPath → Option String)
    (folder_of : FsPath → Except String String)
    (acc : OrgState × List (String × Nat)) :
    List FsPath → OrgState × List (String × Nat)
  | [] => acc
  | p :: rest =>
    let acc' :=
      match folder_of p with
      | .error e =>
        ({ acc.1 with failed_files := acc.1.failed_files ++ [p],
                      log := acc.1.log ++ [.stat_failed p.name e] }, acc.2)
      | .ok folder => org_step cfg err acc p folder
    organize_fold cfg err folder_of acc' rest

/-- A full organize run: enumerate, then classify-and-relocate each file,
starting from an empty stats dict. -/
def organize_run (cfg : Config) (err : FsPath → Option String)
    (folder_of : FsPath → Except String String)
    (recursive include_hidden : Bool) (st : OrgState) :
    OrgState × List (String × Nat) :=
  organize_fold cfg err folder_of (st, [])
    (get_files st.fs cfg.source_dir recursive include_hidden)

/-- `organize_by_type`: categories default to `DEFAULT_CATEGORIES`. -/
def organize_by_type (cfg : Config) (err : FsPath → Option String)
    (categories : Option (List (String × List String)))
    (recursive include_hidden : Bool) (st : OrgState) :
    OrgState × List (String × Nat) :=
  organize_run cfg err
    (fun p => .ok (classify_by_type (categories.getD DEFAULT_CATEGORIES) p))
    recursive include_hidden st

/-- `organize_by_date`: the folder is the formatted stat timestamp, a stat
failure is caught per file. -/
def organize_by_date (cfg : Config) (err : FsPath → Option String)
    (stat_of : FsPath → Except String FileStat) (date_format : Nat → String)
    (use_creation_date recursive include_hidden : Bool) (st : OrgState) :
    OrgState × List (String × Nat) :=
  organize_run cfg err
    (fun p => (stat_of p).map (fun s =>
      classify_by_date date_format (if use_creation_date then s.ctime else s.mtime)))
    recursive include_hidden st

/-- `organize_by_size`: ranges default to `default_size_ranges`, a stat
failure is caught per file. -/
def organize_by_size (cfg : Config) (err : FsPath → Option String)
    (stat_of : FsPath → Except String FileStat)
    (size_ranges : Option (List (String × Nat × Option Nat)))
    (recursive include_hidden : Bool) (st : OrgState) :
    OrgState × List (String × Nat) :=
  organize_run cfg err
    (fun p => (stat_of p).map (fun s =>
      classify_by_size (size_ranges.getD default_size_ranges) s.size))
    recursive include_hidden st

/-- `organize_by_name_pattern`. -/
def organize_by_name_pattern (cfg : Config) (err : FsPath → Option String)
    (patterns : List (String × String))
    (recursive include_hidden : Bool) (st : OrgState) :
    OrgState × List (String × Nat) :=
  organize_run cfg err (fun p => .ok (classify_by_name_pattern patterns p))
    recursive include_hidden st

/-- `organize_by_custom_rules` after the rules document is parsed; the
`stat` inside `_apply_custom_rules` is supplied as a total size function. -/
def organize_by_custom_rules (cfg : Config) (err : FsPath → Option String)
    (rs : CustomRules) (size_of : FsPath → Nat)
    (recursive include_hidden : Bool) (st : OrgState) :
    OrgState × List (String × Nat) :=
  organize_run cfg err (fun p => .ok (apply_custom_rules rs p (size_of p)))
    recursive include_hidden st

/-- `FolderOrganizer.get_stats`: the pair
`(len(moved_files), len(failed_files))`. -/
def get_stats (st : OrgState) : Nat × Nat :=
  (st.moved_files.length, st.failed_files.length)

/-! ### The undo script (`create_undo_script` and the generated program) -/

/-- The literal data embedded in the generated script. -/
structure UndoScript where
  moved_files : List FsPath
  source_dir : List String
deriving DecidableEq, Repr

inductive UndoOutcome where
  | no_script
  | script (s : UndoScript)
deriving DecidableEq, Repr

/-- `create_undo_script`: with an empty move log only a notice is printed and
nothing is written; otherwise the script embedding the move log and the
source root is produced. -/
def create_undo_script (cfg : Config) (st : OrgState) : UndoOutcome :=
  if st.moved_files.isEmpty then .no_script
  else .script ⟨st.moved_files, cfg.source_dir⟩

/-- The per-file console output of the generated undo script. -/
inductive UndoEvent where
  | moved_back (name : String)
  | not_found (p : FsPath)
  | failed (p : FsPath) (reason : String)
deriving DecidableEq, Repr

/-- One iteration of the generated script's loop: if the logged destination
still exists it is moved into the source root under its own basename with
the same collision-suffix policy; a missing file or a raising move is
reported and the loop continues.  `err` is the exception oracle for
`shutil.move`. -/
def undo_step (source_dir : List String) (err : Option String) (fs : Fs)
    (file_path : FsPath) : Fs × Bool × UndoEvent :=
  if file_path ∈ fs.files then
    match err with
    | some reason => (fs, false, .failed file_path reason)
    | none =>
      let target_path := find_free fs.files source_dir file_path.base
      (add_file (remove_file fs file_path) target_path, true, .moved_back file_path.name)
  else (fs, false, .not_found file_path)

def undo_fold (source_dir : List String) (err : FsPath → Option String)
    (acc : Fs × Nat × List UndoEvent) :
    List FsPath → Fs × Nat × List UndoEvent
  | [] => acc
  | p :: rest =>
    let r := undo_step source_dir (err p) acc.1 p
    undo_fold source_dir err
      (r.1, acc.2.1 + (if r.2.1 then 1 else 0), acc.2.2 ++ [r.2.2]) rest

/-- `undo_organization()` of the generated script: fold over the embedded
move log in logged order, returning the filesystem, the success count and
the console output. -/
def undo_run (s : UndoScript) (err : FsPath → Option String) (fs : Fs) :
    Fs × Nat × List UndoEvent :=
  undo_fold s.source_dir err (fs, 0, []) s.moved_files

/-! ### Helper lemmas -/

lemma mkdirp_files (fs : Fs) (d : List String) : (mkdirp fs d).files = fs.files := by
  simp only [mkdirp]
  split <;> rfl

lemma add_file_files (fs : Fs) (p : FsPath) : (add_file fs p).files = fs.files ++ [p] := rfl

lemma remove_file_files (fs : Fs) (p : FsPath) :
    (remove_file fs p).files = fs.files.erase p := rfl

lemma nth_candidate_zero (dir : List String) (base : FileName) :
    nth_candidate dir base 0 = ⟨dir, base⟩ := rfl

lemma nth_candidate_one_ne_zero (dir : List String) (base : FileName) :
    nth_candidate dir base 1 ≠ nth_candidate dir base 0 := by
  intro h
  have h2 : base.stem ++ "_" ++ toString (0 + 1) = base.stem :=
    congrArg (fun p => (FsPath.base p).stem) h
  have h3 := congrArg String.length h2
  have h4 : ("_" : String).length = 1 := by decide
  have h5 : (toString (0 + 1) : String).length = 1 := by decide
  simp [String.length_append, h4, h5] at h3
  omega

lemma find_free_zero (files : List FsPath) (dir : List String) (base : FileName)
    (h : (⟨dir, base⟩ : FsPath) ∉ files) :
    find_free files dir base = ⟨dir, base⟩ := by
  simp [find_free, find_free_aux, nth_candidate, h]

lemma find_free_one (files : List FsPath) (dir : List String) (base : FileName)
    (h0 : (⟨dir, base⟩ : FsPath) ∈ files)
    (h1 : nth_candidate dir base 1 ∉ files) :
    find_free files dir base = nth_candidate dir base 1 := by
  obtain ⟨a, l, rfl⟩ : ∃ a l, files = a :: l := by
    cases files with
    | nil => simp at h0
    | cons a l => exact ⟨a, l, rfl⟩
  show find_free_aux (a :: l) dir base (l.length + 1 + 1) 0 = _
  rw [find_free_aux, if_pos (by simpa [nth_candidate] using h0)]
  rw [find_free_aux, if_neg (by simpa using h1)]

lemma move_file_dry (cfg : Config) (err : Option String) (st : OrgState)
    (src : FsPath) (folder : String) (h : cfg.dry_run = true) :
    move_file cfg err st src folder =
      ({ st with log := st.log ++
          [.would_move src ⟨cfg.target_dir ++ [folder], src.base⟩] }, true) := by
  simp [move_file, h]

lemma move_file_live_err (cfg : Config) (st : OrgState) (src : FsPath)
    (folder : String) (reason : String) (h : cfg.dry_run = false) :
    move_file cfg (some reason) st src folder =
      ({ st with fs := mkdirp st.fs (cfg.target_dir ++ [folder]),
                 failed_files := st.failed_files ++ [src],
                 log := st.log ++ [.move_failed src.name reason] }, false) := by
  simp [move_file, h]

lemma move_file_live_ok (cfg : Config) (st : OrgState) (src : FsPath)
    (folder : String) (h : cfg.dry_run = false) :
    move_file cfg none st src folder =
      ({ st with
         fs := if cfg.copy_files then
                 add_file (mkdirp st.fs (cfg.target_dir ++ [folder]))
                   (find_free st.fs.files (cfg.target_dir ++ [folder]) src.base)
               else
                 add_file (remove_file (mkdirp st.fs (cfg.target_dir ++ [folder])) src)
                   (find_free st.fs.files (cfg.target_dir ++ [folder]) src.base),
         moved_files := st.moved_files ++
           [find_free st.fs.files (cfg.target_dir ++ [folder]) src.base],
         log := st.log ++ [if cfg.copy_files then LogEvent.copied src.name folder
                           else LogEvent.moved src.name folder] }, true) := by
  simp [move_file, h, mkdirp_files]

lemma first_category_no_match (e : String) :
    ∀ cats : List (String × List String),
      (∀ c ∈ cats, e ∉ c.2) → first_category e cats = "Others"
  | [], _ => rfl
  | (category, extensions) :: rest, h => by
    have hni : e ∉ extensions := h (category, extensions) (by simp)
    rw [first_category, if_neg hni]
    exact first_category_no_match e rest (fun c hc => h c (by simp [hc]))

lemma first_size_range_no_match (s : Nat) :
    ∀ ranges : List (String × Nat × Option Nat),
      (∀ r ∈ ranges, in_size_range r.2.1 r.2.2 s = false) →
      first_size_range s ranges = "Unknown Size"
  | [], _ => rfl
  | (range_name, min_size, max_size) :: rest, h => by
    have hni : in_size_range min_size max_size s = false :=
      h (range_name, min_size, max_size) (by simp)
    rw [first_size_range, if_neg (by simp [hni])]
    exact first_size_range_no_match s rest (fun r hr => h r (by simp [hr]))

lemma first_pattern_no_match (filename : String) :
    ∀ patterns : List (String × String),
      (∀ q ∈ patterns, substr_in (str_lower q.2) filename = false) →
      first_pattern filename patterns = "Others"
  | [], _ => rfl
  | (folder_name, pat) :: rest, h => by
    have hni : substr_in (str_lower pat) filename = false := h (folder_name, pat) (by simp)
    rw [first_pattern, if_neg (by simp [hni])]
    exact first_pattern_no_match filename rest (fun q hq => h q (by simp [hq]))

lemma first_rule_no_match (filename file_ext : String) (file_size : Nat) :
    ∀ rules : List CustomRule,
      (∀ r ∈ rules, rule_matches filename file_ext file_size r.conditions = false) →
      first_rule filename file_ext file_size rules = none
  | [], _ => rfl
  | r :: rest, h => by
    have hni : rule_matches filename file_ext file_size r.conditions = false := h r (by simp)
    rw [first_rule, if_neg (by simp [hni])]
    exact first_rule_no_match filename file_ext file_size rest (fun q hq => h q (by simp [hq]))

lemma first_size_range_append (s : Nat) (name : String) (min_size : Nat)
    (max_size : Option Nat) (post : List (String × Nat × Option Nat))
    (hm : in_size_range min_size max_size s = true) :
    ∀ pre : List (String × Nat × Option Nat),
      (∀ r ∈ pre, in_size_range r.2.1 r.2.2 s = false) →
      first_size_range s (pre ++ (name, min_size, max_size) :: post) = name
  | [], _ => by rw [List.nil_append, first_size_range, if_pos hm]
  | (n0, mn0, mx0) :: rest, h => by
    have hni : in_size_range mn0 mx0 s = false := h (n0, mn0, mx0) (by simp)
    rw [List.cons_append, first_size_range, if_neg (by simp [hni])]
    exact first_size_range_append s name min_size max_size post hm rest
      (fun r hr => h r (by simp [hr]))

lemma first_rule_append (filename file_ext : String) (file_size : Nat)
    (r : CustomRule) (post : List CustomRule)
    (hm : rule_matches filename file_ext file_size r.conditions = true) :
    ∀ pre : List CustomRule,
      (∀ q ∈ pre, rule_matches filename file_ext file_size q.conditions = false) →
      first_rule filename file_ext file_size (pre ++ r :: post) = some r
  | [], _ => by rw [List.nil_append, first_rule, if_pos hm]
  | q :: rest, h => by
    have hni : rule_matches filename file_ext file_size q.conditions = false := h q (by simp)
    rw [List.cons_append, first_rule, if_neg (by simp [hni])]
    exact first_rule_append filename file_ext file_size r post hm rest
      (fun q0 hq => h q0 (by simp [hq]))

lemma org_fold_dry_state (cfg : Config) (err : FsPath → Option String)
    (folder_of : FsPath → Except String String) (h : cfg.dry_run = true) :
    ∀ (files : List FsPath) (st : OrgState) (stats : List (String × Nat)),
      (organize_fold cfg err folder_of (st, stats) files).1.fs = st.fs ∧
      (organize_fold cfg err folder_of (st, stats) files).1.moved_files = st.moved_files
  | [], _, _ => ⟨rfl, rfl⟩
  | p :: rest, st, stats => by
    rw [organize_fold]
    cases hf : folder_of p with
    | error e =>
      simpa using org_fold_dry_state cfg err folder_of h rest _ stats
    | ok folder =>
      have := org_fold_dry_state cfg err folder_of h rest
        (move_file cfg (err p) st p folder).1
        (if (move_file cfg (err p) st p folder).2 then bump_stat stats folder else stats)
      rw [move_file_dry cfg (err p) st p folder h] at this
      simpa [org_step, move_file_dry cfg (err p) st p folder h] using this

lemma org_fold_dry_stats (cfg : Config) (err : FsPath → Option String)
    (folder_of : FsPath → Except String String) (h : cfg.dry_run = true) :
    ∀ (files : List FsPath) (st st' : OrgState) (stats : List (String × Nat)),
      (organize_fold cfg err folder_of (st, stats) files).2 =
      (organize_fold cfg err folder_of (st', stats) files).2
  | [], _, _, _ => rfl
  | p :: rest, st, st', stats => by
    rw [organize_fold, organize_fold]
    cases hf : folder_of p with
    | error e => exact org_fold_dry_stats cfg err folder_of h rest _ _ stats
    | ok folder =>
      simp only [org_step, move_file_dry cfg (err p) st p folder h,
        move_file_dry cfg (err p) st' p folder h]
      exact org_fold_dry_stats cfg err folder_of h rest _ _ _

/-- One live move-mode step whose initial target name is free: the file is
relocated to exactly that name and appended to the move log. -/
lemma org_step_live_move (cfg : Config) (st : OrgState)
    (stats : List (String × Nat)) (p : FsPath) (folder : String)
    (hdry : cfg.dry_run = false) (hcopy : cfg.copy_files = false)
    (hfree : (⟨cfg.target_dir ++ [folder], p.base⟩ : FsPath) ∉ st.fs.files) :
    org_step cfg (fun _ => none) (st, stats) p folder =
      ({ st with
         fs := add_file (remove_file (mkdirp st.fs (cfg.target_dir ++ [folder])) p)
                 ⟨cfg.target_dir ++ [folder], p.base⟩,
         moved_files := st.moved_files ++ [(⟨cfg.target_dir ++ [folder], p.base⟩ : FsPath)],
         log := st.log ++ [LogEvent.moved p.name folder] }, bump_stat stats folder) := by
  simp [org_step, move_file_live_ok cfg st p folder hdry, hcopy,
    find_free_zero _ _ _ hfree]

/-- Forward pass of a live move-mode run over a clean source root: every file
lands at its uncollided initial target, the move log records the targets in
order, and no failure occurs. -/
lemma organize_fold_forward (cfg : Config) (classify : FsPath → String)
    (hdry : cfg.dry_run = false) (hcopy : cfg.copy_files = false)
    (hsep : ∀ f : String, cfg.target_dir ++ [f] ≠ cfg.source_dir) :
    ∀ (bs : List FileName) (ts : List FsPath) (st : OrgState)
      (stats : List (String × Nat)),
      st.fs.files = bs.map (fun b => (⟨cfg.source_dir, b⟩ : FsPath)) ++ ts →
      bs.Nodup →
      (∀ p ∈ ts, ∀ b ∈ bs, p.base ≠ b) →
      (organize_fold cfg (fun _ => none) (fun p => .ok (classify p)) (st, stats)
          (bs.map (fun b => (⟨cfg.source_dir, b⟩ : FsPath)))).1.fs.files =
        ts ++ bs.map (fun b =>
          (⟨cfg.target_dir ++ [classify ⟨cfg.source_dir, b⟩], b⟩ : FsPath)) ∧
      (organize_fold cfg (fun _ => none) (fun p => .ok (classify p)) (st, stats)
          (bs.map (fun b => (⟨cfg.source_dir, b⟩ : FsPath)))).1.moved_files =
        st.moved_files ++ bs.map (fun b =>
          (⟨cfg.target_dir ++ [classify ⟨cfg.source_dir, b⟩], b⟩ : FsPath)) := by
  intro bs
  induction bs with
  | nil =>
    intro ts st stats hfiles _ _
    simp only [List.map_nil, organize_fold, List.nil_append] at hfiles ⊢
    exact ⟨by simp [hfiles], by simp⟩
  | cons b bs' ih =>
    intro ts st stats hfiles hnd hts
    have hmk : (⟨cfg.source_dir, b⟩ : FsPath) :: (bs'.map (fun b =>
        (⟨cfg.source_dir, b⟩ : FsPath)) ++ ts) = st.fs.files := by
      simp [hfiles]
    have hnotin : (⟨cfg.target_dir ++ [classify ⟨cfg.source_dir, b⟩], b⟩ : FsPath) ∉
        st.fs.files := by
      rw [← hmk]
      intro hmem
      rcases List.mem_cons.mp hmem with heq | hmem'
      · exact hsep (classify ⟨cfg.source_dir, b⟩) (congrArg FsPath.dir heq)
      · rcases List.mem_append.mp hmem' with hmem2 | hmem3
        · obtain ⟨b0, _, heq⟩ := List.mem_map.mp hmem2
          exact hsep (classify ⟨cfg.source_dir, b⟩) (congrArg FsPath.dir heq.symm)
        · exact hts _ hmem3 b (List.mem_cons_self b bs') rfl
    rw [List.map_cons]
    simp only [organize_fold]
    rw [show org_step cfg (fun _ => none) (st, stats) ⟨cfg.source_dir, b⟩
          (classify ⟨cfg.source_dir, b⟩) = _ from
        org_step_live_move cfg st stats ⟨cfg.source_dir, b⟩
          (classify ⟨cfg.source_dir, b⟩) hdry hcopy hnotin]
    have herase : st.fs.files.erase ⟨cfg.source_dir, b⟩ =
        bs'.map (fun b => (⟨cfg.source_dir, b⟩ : FsPath)) ++ ts := by
      rw [← hmk, List.erase_cons_head]
    obtain ⟨ih1, ih2⟩ := ih
      (ts ++ [⟨cfg.target_dir ++ [classify ⟨cfg.source_dir, b⟩], b⟩])
      ({ st with
         fs := add_file (remove_file (mkdirp st.fs
                 (cfg.target_dir ++ [classify ⟨cfg.source_dir, b⟩])) ⟨cfg.source_dir, b⟩)
               ⟨cfg.target_dir ++ [classify ⟨cfg.source_dir, b⟩], b⟩,
         moved_files := st.moved_files ++
           [⟨cfg.target_dir ++ [classify ⟨cfg.source_dir, b⟩], b⟩],
         log := st.log ++ [LogEvent.moved (FsPath.name ⟨cfg.source_dir, b⟩)
           (classify ⟨cfg.source_dir, b⟩)] })
      (bump_stat stats (classify ⟨cfg.source_dir, b⟩))
      (by simp [add_file_files, remove_file_files, mkdirp_files, herase])
      (List.Nodup.of_cons hnd)
      (by
        intro p hp b' hb'
        rcases List.mem_append.mp hp with hp1 | hp2
        · exact hts p hp1 b' (List.mem_cons_of_mem b hb')
        · have hpeq : p = ⟨cfg.target_dir ++ [classify ⟨cfg.source_dir, b⟩], b⟩ := by
            simpa using hp2
          rw [hpeq]
          intro hbase
          have hb : b = b' := hbase
          exact (List.nodup_cons.mp hnd).1 (hb ▸ hb'))
    constructor
    · rw [ih1]
      simp
    · rw [ih2]
      simp

/-- Undo pass over a filesystem holding exactly the pending logged files plus
already-restored files: every pending file is moved back to the source root
under its own basename without collision, and the success count grows by one
per file. -/
lemma undo_fold_restores (source_dir : List String) :
    ∀ (ms done : List FsPath) (fs : Fs) (n : Nat) (evs : List UndoEvent),
      fs.files = ms ++ done →
      (∀ p ∈ ms, p.dir ≠ source_dir) →
      (ms.map FsPath.base).Nodup →
      (∀ p ∈ ms, (⟨source_dir, p.base⟩ : FsPath) ∉ done) →
      (undo_fold source_dir (fun _ => none) (fs, n, evs) ms).1.files =
        done ++ ms.map (fun p => (⟨source_dir, p.base⟩ : FsPath)) ∧
      (undo_fold source_dir (fun _ => none) (fs, n, evs) ms).2.1 = n + ms.length
  | [], done, fs, n, evs => by
    intro hfiles _ _ _
    simp [undo_fold, hfiles]
  | p :: ms', done, fs, n, evs => by
    intro hfiles hdir hnd hdone
    have hp_mem : p ∈ fs.files := by
      rw [hfiles]
      exact List.mem_append_left _ (List.mem_cons_self p ms')
    have hr_notin : (⟨source_dir, p.base⟩ : FsPath) ∉ fs.files := by
      rw [hfiles]
      intro hmem
      rcases List.mem_append.mp hmem with hmem1 | hmem2
      · exact hdir _ hmem1 rfl
      · exact hdone p (List.mem_cons_self p ms') hmem2
    have hff := find_free_zero fs.files source_dir p.base hr_notin
    have hstep : undo_step source_dir none fs p =
        (add_file (remove_file fs p) ⟨source_dir, p.base⟩, true, .moved_back p.name) := by
      rw [undo_step, if_pos hp_mem, hff]
    rw [undo_fold]
    simp only [hstep, if_true]
    have herase : fs.files.erase p = ms' ++ done := by
      have : fs.files = p :: (ms' ++ done) := by simpa using hfiles
      rw [this, List.erase_cons_head]
    obtain ⟨ih1, ih2⟩ := undo_fold_restores source_dir ms'
      (done ++ [⟨source_dir, p.base⟩])
      (add_file (remove_file fs p) ⟨source_dir, p.base⟩)
      (n + 1) (evs ++ [.moved_back p.name])
      (by simp [add_file_files, remove_file_files, herase])
      (fun q hq => hdir q (List.mem_cons_of_mem p hq))
      ((List.nodup_cons.mp hnd).2)
      (by
        intro q hq hmem
        rcases List.mem_append.mp hmem with hmem1 | hmem2
        · exact hdone q (List.mem_cons_of_mem p hq) hmem1
        · have hbase : q.base = p.base := by
            have h2 : (⟨source_dir, q.base⟩ : FsPath) = ⟨source_dir, p.base⟩ := by
              simpa using hmem2
            injection h2
          exact (List.nodup_cons.mp hnd).1
            (hbase ▸ List.mem_map_of_mem FsPath.base hq))
    constructor
    · rw [ih1]
      simp
    · rw [ih2]
      simp only [List.length_cons]
      omega

/-! ### Claim theorems -/

/-- Claim C3, counterexample: the claim asserts the pre-flight check fails
when the source root exists but is not a directory; in the code an existing
non-directory source passes the check, because only `exists()` is tested. -/
theorem C3_counterexample :
    folder_organizer_init true false = InitOutcome.ok := rfl

/-- Claim C3 (amended): the pre-flight check fails, before any file is
touched, exactly when the source root does not exist; any existing root —
directory or not — passes, and in particular construction succeeds for an
existing directory. -/
theorem C3_preflight_existence :
    ∀ source_exists source_is_dir : Bool,
      (folder_organizer_init source_exists source_is_dir =
        InitOutcome.file_not_found_error ↔ source_exists = false) := by
  intro e d
  cases e <;> simp [folder_organizer_init]

/-- Claim C5: with the default ranges, 500000 bytes classify as Small,
5000000 as Medium, 200000000 as Very Large and exactly 1048576 as Medium;
each named range is the half-open interval from its inclusive lower bound to
its exclusive upper bound, and ranges are checked in declared order with the
first match winning. -/
theorem C5_size_classification :
    classify_by_size default_size_ranges 500000 = "Small (< 1MB)" ∧
    classify_by_size default_size_ranges 5000000 = "Medium (1-10MB)" ∧
    classify_by_size default_size_ranges 200000000 = "Very Large (> 100MB)" ∧
    classify_by_size default_size_ranges 1048576 = "Medium (1-10MB)" ∧
    (∀ min_size m s : Nat,
      (in_size_range min_size (some m) s = true ↔ min_size ≤ s ∧ s < m)) ∧
    (∀ min_size s : Nat, (in_size_range min_size none s = true ↔ min_size ≤ s)) ∧
    (∀ (pre post : List (String × Nat × Option Nat)) (range_name : String)
       (min_size : Nat) (max_size : Option Nat) (s : Nat),
      (∀ r ∈ pre, in_size_range r.2.1 r.2.2 s = false) →
      in_size_range min_size max_size s = true →
      classify_by_size (pre ++ (range_name, min_size, max_size) :: post) s =
        range_name) := by
  refine ⟨by decide, by decide, by decide, by decide, ?_, ?_, ?_⟩
  · intro mn m s
    simp [in_size_range]
  · intro mn s
    simp [in_size_range]
  · intro pre post range_name mn mx s hpre hm
    exact first_size_range_append s range_name mn mx post hm pre hpre

/-- Witness for C5: the first-match conjunct applied at the default table
split around the Medium range, at the boundary size 1048576. -/
theorem C5_size_classification_witness :
    (∀ r ∈ [("Small (< 1MB)", (0 : Nat), some (1024 * 1024 : Nat))],
      in_size_range r.2.1 r.2.2 1048576 = false) ∧
    classify_by_size ([("Small (< 1MB)", (0 : Nat), some (1024 * 1024 : Nat))] ++
      ("Medium (1-10MB)", 1024 * 1024, some (10 * 1024 * 1024)) ::
      [("Large (10-100MB)", 10 * 1024 * 1024, some (100 * 1024 * 1024)),
       ("Very Large (> 100MB)", 100 * 1024 * 1024, none)]) 1048576 =
      "Medium (1-10MB)" :=
  ⟨by decide,
   C5_size_classification.2.2.2.2.2.2
     [("Small (< 1MB)", 0, some (1024 * 1024))]
     [("Large (10-100MB)", 10 * 1024 * 1024, some (100 * 1024 * 1024)),
      ("Very Large (> 100MB)", 100 * 1024 * 1024, none)]
     "Medium (1-10MB)" (1024 * 1024) (some (10 * 1024 * 1024)) 1048576
     (by decide) (by decide)⟩

/-- The rule set of the C6 example: one rule requiring extension `.docx` and
substring `work`, folder `Work`, with default folder `Others`. -/
def C6_rules : CustomRules :=
  ⟨some "Others", [⟨some "Work", ⟨some [".docx"], some "work", none⟩⟩]⟩

/-- Claim C6: rules are evaluated in declaration order, the first rule whose
present conditions all hold wins; conditions are extension membership,
case-insensitive substring, and inclusive size range, absent conditions being
vacuously true; no match falls to the configured default (itself defaulting
to Others).  `work_report.docx` matches the example rule, `report.docx` does
not. -/
theorem C6_custom_rules_semantics :
    (∀ s : Nat, apply_custom_rules C6_rules ⟨[], ⟨"work_report", ".docx"⟩⟩ s = "Work") ∧
    (∀ s : Nat, apply_custom_rules C6_rules ⟨[], ⟨"report", ".docx"⟩⟩ s = "Others") ∧
    (∀ (filename file_ext : String) (s : Nat),
      rule_matches filename file_ext s ⟨none, none, none⟩ = true) ∧
    (∀ (filename file_ext : String) (s : Nat) (exts : List String) (pat : String)
       (mn m : Nat),
      (rule_matches filename file_ext s ⟨some exts, some pat, some (mn, some m)⟩ = true ↔
        file_ext ∈ exts ∧ substr_in (str_lower pat) filename = true ∧ mn ≤ s ∧ s ≤ m)) ∧
    (∀ (pre post : List CustomRule) (r : CustomRule) (p : FsPath) (s : Nat)
       (dflt : Option String),
      (∀ q ∈ pre, rule_matches (str_lower p.name) (str_lower p.base.suffix) s
        q.conditions = false) →
      rule_matches (str_lower p.name) (str_lower p.base.suffix) s r.conditions = true →
      apply_custom_rules ⟨dflt, pre ++ r :: post⟩ p s = r.folder.getD "Others") ∧
    (∀ (rs : CustomRules) (p : FsPath) (s : Nat),
      (∀ q ∈ rs.rules, rule_matches (str_lower p.name) (str_lower p.base.suffix) s
        q.conditions = false) →
      apply_custom_rules rs p s = rs.default_folder.getD "Others") := by
  refine ⟨fun s => rfl, fun s => rfl, ?_, ?_, ?_, ?_⟩
  · intro filename file_ext s
    simp [rule_matches]
  · intro filename file_ext s exts pat mn m
    simp [rule_matches, and_assoc]
  · intro pre post r p s dflt hpre hm
    simp only [apply_custom_rules]
    rw [first_rule_append (str_lower p.name) (str_lower p.base.suffix) s r post hm pre hpre]
  · intro rs p s hall
    simp only [apply_custom_rules]
    rw [first_rule_no_match (str_lower p.name) (str_lower p.base.suffix) s rs.rules hall]

/-- Witness for C6: the first-match conjunct applied to the example rule set
and the file `work_report.docx`. -/
theorem C6_custom_rules_semantics_witness :
    rule_matches (str_lower (FsPath.name ⟨[], ⟨"work_report", ".docx"⟩⟩))
      (str_lower ".docx") 7 (RuleConditions.mk (some [".docx"]) (some "work") none) = true ∧
    apply_custom_rules ⟨some "Others",
      [] ++ (CustomRule.mk (some "Work")
        (RuleConditions.mk (some [".docx"]) (some "work") none)) :: []⟩
      ⟨[], ⟨"work_report", ".docx"⟩⟩ 7 = "Work" :=
  ⟨by decide,
   C6_custom_rules_semantics.2.2.2.2.1 [] []
     (CustomRule.mk (some "Work") (RuleConditions.mk (some [".docx"]) (some "work") none))
     ⟨[], ⟨"work_report", ".docx"⟩⟩ 7 (some "Others")
     (by simp) (by decide)⟩

/-- Claim C1: every classifier is total and single-valued — for any file and
any strategy configuration exactly one destination folder name is produced —
the fallback bucket (Others for type, name-pattern and custom rules with no
configured default; Unknown Size for size) is returned whenever nothing
matches, and each fallback is reachable by a concrete input matching
nothing. -/
theorem C1_classification_exactly_one :
    (∀ (categories : List (String × List String)) (p : FsPath),
      ∃! folder, classify_by_type categories p = folder) ∧
    (∀ (date_format : Nat → String) (t : Nat),
      ∃! folder, classify_by_date date_format t = folder) ∧
    (∀ (size_ranges : List (String × Nat × Option Nat)) (s : Nat),
      ∃! folder, classify_by_size size_ranges s = folder) ∧
    (∀ (patterns : List (String × String)) (p : FsPath),
      ∃! folder, classify_by_name_pattern patterns p = folder) ∧
    (∀ (rs : CustomRules) (p : FsPath) (s : Nat),
      ∃! folder, apply_custom_rules rs p s = folder) ∧
    (∀ (categories : List (String × List String)) (p : FsPath),
      (∀ c ∈ categories, str_lower p.base.suffix ∉ c.2) →
      classify_by_type categories p = "Others") ∧
    (∀ (size_ranges : List (String × Nat × Option Nat)) (s : Nat),
      (∀ r ∈ size_ranges, in_size_range r.2.1 r.2.2 s = false) →
      classify_by_size size_ranges s = "Unknown Size") ∧
    (∀ (patterns : List (String × String)) (p : FsPath),
      (∀ q ∈ patterns, substr_in (str_lower q.2) (str_lower p.name) = false) →
      classify_by_name_pattern patterns p = "Others") ∧
    (∀ (rules : List CustomRule) (p : FsPath) (s : Nat),
      (∀ q ∈ rules, rule_matches (str_lower p.name) (str_lower p.base.suffix) s
        q.conditions = false) →
      apply_custom_rules ⟨none, rules⟩ p s = "Others") ∧
    classify_by_type DEFAULT_CATEGORIES ⟨[], ⟨"f", ".xyz"⟩⟩ = "Others" ∧
    classify_by_size [("Tiny", 0, some 10)] 100 = "Unknown Size" ∧
    classify_by_name_pattern [("Docs", "doc")] ⟨[], ⟨"a", ".txt"⟩⟩ = "Others" ∧
    apply_custom_rules ⟨none, [⟨some "Work", ⟨some [".docx"], none, none⟩⟩]⟩
      ⟨[], ⟨"a", ".txt"⟩⟩ 0 = "Others" := by
  refine ⟨?_, ?_, ?_, ?_, ?_, ?_, ?_, ?_, ?_, by decide, by decide, by decide, by decide⟩
  · exact fun categories p => ⟨_, rfl, fun y hy => hy.symm⟩
  · exact fun date_format t => ⟨_, rfl, fun y hy => hy.symm⟩
  · exact fun size_ranges s => ⟨_, rfl, fun y hy => hy.symm⟩
  · exact fun patterns p => ⟨_, rfl, fun y hy => hy.symm⟩
  · exact fun rs p s => ⟨_, rfl, fun y hy => hy.symm⟩
  · exact fun categories p h => first_category_no_match _ categories h
  · exact fun size_ranges s h => first_size_range_no_match s size_ranges h
  · exact fun patterns p h => first_pattern_no_match _ patterns h
  · intro rules p s h
    simp only [apply_custom_rules]
    rw [first_rule_no_match (str_lower p.name) (str_lower p.base.suffix) s rules h]
    rfl

/-- Witness for C1: the type-classifier fallback conjunct applied at the
default categories and an unrecognized extension. -/
theorem C1_classification_exactly_one_witness :
    (∀ c ∈ DEFAULT_CATEGORIES,
      str_lower (FileName.suffix ⟨"f", ".xyz"⟩) ∉ c.2) ∧
    classify_by_type DEFAULT_CATEGORIES ⟨[], ⟨"f", ".xyz"⟩⟩ = "Others" :=
  ⟨by decide,
   C1_classification_exactly_one.2.2.2.2.2.1 DEFAULT_CATEGORIES
     ⟨[], ⟨"f", ".xyz"⟩⟩ (by decide)⟩

/-- Claim C2: in live mode an occupied initial target name is resolved by
appending `_N` (starting at 1) before the extension until a free name is
found, so two distinct sources destined for the same target basename land as
`name` and `name_1` with both recorded in the move log, while in dry-run mode
no collision check against the target path is performed and the untouched
initial target path is reported. -/
theorem C2_collision_handling :
    (∀ (cfg : Config) (err : Option String) (st : OrgState) (src : FsPath)
       (folder : String),
      cfg.dry_run = true →
      move_file cfg err st src folder =
        ({ st with log := st.log ++
            [.would_move src ⟨cfg.target_dir ++ [folder], src.base⟩] }, true)) ∧
    (∀ (cfg : Config) (st : OrgState) (src : FsPath) (folder : String),
      cfg.dry_run = false →
      (⟨cfg.target_dir ++ [folder], src.base⟩ : FsPath) ∈ st.fs.files →
      nth_candidate (cfg.target_dir ++ [folder]) src.base 1 ∉ st.fs.files →
      (move_file cfg none st src folder).1.moved_files =
        st.moved_files ++ [nth_candidate (cfg.target_dir ++ [folder]) src.base 1]) ∧
    (∀ (cfg : Config) (st : OrgState) (f1 f2 : FsPath) (folder : String),
      cfg.dry_run = false → cfg.copy_files = false →
      f2.base = f1.base →
      (⟨cfg.target_dir ++ [folder], f1.base⟩ : FsPath) ∉ st.fs.files →
      nth_candidate (cfg.target_dir ++ [folder]) f1.base 1 ∉ st.fs.files →
      f2 ≠ (⟨cfg.target_dir ++ [folder], f1.base⟩ : FsPath) →
      (⟨cfg.target_dir ++ [folder], f1.base⟩ : FsPath) ∈
        (move_file cfg none (move_file cfg none st f1 folder).1 f2 folder).1.fs.files ∧
      nth_candidate (cfg.target_dir ++ [folder]) f1.base 1 ∈
        (move_file cfg none (move_file cfg none st f1 folder).1 f2 folder).1.fs.files ∧
      (move_file cfg none (move_file cfg none st f1 folder).1 f2 folder).1.moved_files =
        st.moved_files ++
          [⟨cfg.target_dir ++ [folder], f1.base⟩,
           nth_candidate (cfg.target_dir ++ [folder]) f1.base 1]) := by
  refine ⟨?_, ?_, ?_⟩
  · exact fun cfg err st src folder h => move_file_dry cfg err st src folder h
  · intro cfg st src folder hdry hmem hfree
    rw [move_file_live_ok cfg st src folder hdry]
    rw [find_free_one st.fs.files (cfg.target_dir ++ [folder]) src.base hmem hfree]
  · intro cfg st f1 f2 folder hdry hcopy hb hfree0 hfree1 hne
    have hres1 := move_file_live_ok cfg st f1 folder hdry
    have hff1 := find_free_zero st.fs.files (cfg.target_dir ++ [folder]) f1.base hfree0
    have hfiles1 : (move_file cfg none st f1 folder).1.fs.files =
        st.fs.files.erase f1 ++ [⟨cfg.target_dir ++ [folder], f1.base⟩] := by
      rw [hres1]
      simp [hcopy, add_file_files, remove_file_files, mkdirp_files, hff1]
    have hmv1 : (move_file cfg none st f1 folder).1.moved_files =
        st.moved_files ++ [⟨cfg.target_dir ++ [folder], f1.base⟩] := by
      rw [hres1]
      simp [hff1]
    have hmem0 : (⟨cfg.target_dir ++ [folder], f1.base⟩ : FsPath) ∈
        (move_file cfg none st f1 folder).1.fs.files := by
      rw [hfiles1]
      exact List.mem_append_right _ (List.mem_singleton.mpr rfl)
    have hnot1 : nth_candidate (cfg.target_dir ++ [folder]) f1.base 1 ∉
        (move_file cfg none st f1 folder).1.fs.files := by
      rw [hfiles1]
      intro hmem
      rcases List.mem_append.mp hmem with h1 | h1
      · exact hfree1 (List.mem_of_mem_erase h1)
      · exact nth_candidate_one_ne_zero (cfg.target_dir ++ [folder]) f1.base
          (List.mem_singleton.mp h1)
    have hres2 := move_file_live_ok cfg (move_file cfg none st f1 folder).1 f2 folder hdry
    have hff2 : find_free (move_file cfg none st f1 folder).1.fs.files
        (cfg.target_dir ++ [folder]) f2.base =
        nth_candidate (cfg.target_dir ++ [folder]) f1.base 1 := by
      rw [hb]
      exact find_free_one _ _ _ hmem0 hnot1
    have hfiles2 : (move_file cfg none (move_file cfg none st f1 folder).1 f2
        folder).1.fs.files =
        (move_file cfg none st f1 folder).1.fs.files.erase f2 ++
          [nth_candidate (cfg.target_dir ++ [folder]) f1.base 1] := by
      rw [hres2]
      simp [hcopy, add_file_files, remove_file_files, mkdirp_files, hff2]
    refine ⟨?_, ?_, ?_⟩
    · rw [hfiles2]
      exact List.mem_append_left _
        ((List.mem_erase_of_ne (fun h => hne h.symm)).mpr hmem0)
    · rw [hfiles2]
      exact List.mem_append_right _ (List.mem_singleton.mpr rfl)
    · rw [hres2]
      simp [hff2, hmv1]

/-- Witness for C2: the two-file scenario at a concrete configuration —
`src/photo.jpg` and `sub/photo.jpg` both destined for `tgt/Images/photo.jpg`
in live move mode. -/
theorem C2_collision_handling_witness :
    (⟨["src"], ["tgt"], false, false⟩ : Config).dry_run = false ∧
    ((⟨["tgt", "Images"], ⟨"photo", ".jpg"⟩⟩ : FsPath) ∈
      (move_file ⟨["src"], ["tgt"], false, false⟩ none
        (move_file ⟨["src"], ["tgt"], false, false⟩ none
          ⟨⟨[["src"]], [⟨["src"], ⟨"photo", ".jpg"⟩⟩, ⟨["sub"], ⟨"photo", ".jpg"⟩⟩]⟩,
            [], [], []⟩
          ⟨["src"], ⟨"photo", ".jpg"⟩⟩ "Images").1
        ⟨["sub"], ⟨"photo", ".jpg"⟩⟩ "Images").1.fs.files ∧
    nth_candidate ["tgt", "Images"] ⟨"photo", ".jpg"⟩ 1 ∈
      (move_file ⟨["src"], ["tgt"], false, false⟩ none
        (move_file ⟨["src"], ["tgt"], false, false⟩ none
          ⟨⟨[["src"]], [⟨["src"], ⟨"photo", ".jpg"⟩⟩, ⟨["sub"], ⟨"photo", ".jpg"⟩⟩]⟩,
            [], [], []⟩
          ⟨["src"], ⟨"photo", ".jpg"⟩⟩ "Images").1
        ⟨["sub"], ⟨"photo", ".jpg"⟩⟩ "Images").1.fs.files ∧
    (move_file ⟨["src"], ["tgt"], false, false⟩ none
        (move_file ⟨["src"], ["tgt"], false, false⟩ none
          ⟨⟨[["src"]], [⟨["src"], ⟨"photo", ".jpg"⟩⟩, ⟨["sub"], ⟨"photo", ".jpg"⟩⟩]⟩,
            [], [], []⟩
          ⟨["src"], ⟨"photo", ".jpg"⟩⟩ "Images").1
        ⟨["sub"], ⟨"photo", ".jpg"⟩⟩ "Images").1.moved_files =
      [] ++ [⟨["tgt", "Images"], ⟨"photo", ".jpg"⟩⟩,
             nth_candidate ["tgt", "Images"] ⟨"photo", ".jpg"⟩ 1]) :=
  ⟨rfl,
   C2_collision_handling.2.2 ⟨["src"], ["tgt"], false, false⟩
     ⟨⟨[["src"]], [⟨["src"], ⟨"photo", ".jpg"⟩⟩, ⟨["sub"], ⟨"photo", ".jpg"⟩⟩]⟩,
       [], [], []⟩
     ⟨["src"], ⟨"photo", ".jpg"⟩⟩ ⟨["sub"], ⟨"photo", ".jpg"⟩⟩ "Images"
     rfl rfl rfl (by decide) (by decide) (by decide)⟩

/-- Claim C8: in live mode a successful relocation appends the resolved
target path to the move log and returns true; a raising move/copy records
the single file in the failure list, logs its name and reason, returns false
instead of propagating, and the batch folds on to the remaining files; a
stat failure under the date/size strategies likewise records the file and
continues.  No retry appears anywhere in the fold. -/
theorem C8_per_file_failure_handling :
    (∀ (cfg : Config) (st : OrgState) (src : FsPath) (folder : String),
      cfg.dry_run = false →
      (move_file cfg none st src folder).1.moved_files =
        st.moved_files ++ [find_free st.fs.files (cfg.target_dir ++ [folder]) src.base] ∧
      (move_file cfg none st src folder).2 = true) ∧
    (∀ (cfg : Config) (st : OrgState) (src : FsPath) (folder reason : String),
      cfg.dry_run = false →
      move_file cfg (some reason) st src folder =
        ({ st with fs := mkdirp st.fs (cfg.target_dir ++ [folder]),
                   failed_files := st.failed_files ++ [src],
                   log := st.log ++ [.move_failed src.name reason] }, false)) ∧
    (∀ (cfg : Config) (err : FsPath → Option String)
       (folder_of : FsPath → Except String String)
       (acc : OrgState × List (String × Nat)) (p : FsPath) (rest : List FsPath),
      organize_fold cfg err folder_of acc (p :: rest) =
        organize_fold cfg err folder_of
          (match folder_of p with
           | .error e =>
             ({ acc.1 with failed_files := acc.1.failed_files ++ [p],
                           log := acc.1.log ++ [.stat_failed p.name e] }, acc.2)
           | .ok folder => org_step cfg err acc p folder) rest) ∧
    (∀ (cfg : Config) (err : FsPath → Option String)
       (folder_of : FsPath → Except String String)
       (acc : OrgState × List (String × Nat)) (p : FsPath) (rest : List FsPath)
       (e : String),
      folder_of p = .error e →
      organize_fold cfg err folder_of acc (p :: rest) =
        organize_fold cfg err folder_of
          ({ acc.1 with failed_files := acc.1.failed_files ++ [p],
                        log := acc.1.log ++ [.stat_failed p.name e] }, acc.2) rest) := by
  refine ⟨?_, ?_, ?_, ?_⟩
  · intro cfg st src folder h
    rw [move_file_live_ok cfg st src folder h]
    exact ⟨rfl, rfl⟩
  · exact fun cfg st src folder reason h => move_file_live_err cfg st src folder reason h
  · intro cfg err folder_of acc p rest
    rfl
  · intro cfg err folder_of acc p rest e hf
    rw [organize_fold]
    simp only [hf]

/-- Witness for C8: the failing-move conjunct applied at a concrete live
configuration with a raising `shutil.move`. -/
theorem C8_per_file_failure_handling_witness :
    (⟨["src"], ["tgt"], false, false⟩ : Config).dry_run = false ∧
    move_file ⟨["src"], ["tgt"], false, false⟩ (some "Permission denied")
        ⟨⟨[["src"]], [⟨["src"], ⟨"a", ".txt"⟩⟩]⟩, [], [], []⟩
        ⟨["src"], ⟨"a", ".txt"⟩⟩ "Documents" =
      ({ fs := mkdirp ⟨[["src"]], [⟨["src"], ⟨"a", ".txt"⟩⟩]⟩ (["tgt"] ++ ["Documents"]),
         moved_files := [],
         failed_files := [] ++ [⟨["src"], ⟨"a", ".txt"⟩⟩],
         log := [] ++ [.move_failed (FsPath.name ⟨["src"], ⟨"a", ".txt"⟩⟩)
           "Permission denied"] }, false) :=
  ⟨rfl,
   C8_per_file_failure_handling.2.1 ⟨["src"], ["tgt"], false, false⟩
     ⟨⟨[["src"]], [⟨["src"], ⟨"a", ".txt"⟩⟩]⟩, [], [], []⟩
     ⟨["src"], ⟨"a", ".txt"⟩⟩ "Documents" "Permission denied" rfl⟩

/-- Claim C9: in dry-run mode nothing is ever appended to the move log, so
after any dry run from a fresh organizer `moved_files` is empty, `get_stats`
reports zero moved files even when the per-folder statistics are non-zero,
and `create_undo_script` only emits the no-files notice. -/
theorem C9_dry_run_empty_move_log :
    (∀ (cfg : Config) (err : FsPath → Option String)
       (folder_of : FsPath → Except String String) (recursive include_hidden : Bool)
       (st : OrgState),
      cfg.dry_run = true → st.moved_files = [] →
      (organize_run cfg err folder_of recursive include_hidden st).1.moved_files = [] ∧
      (get_stats (organize_run cfg err folder_of recursive include_hidden st).1).1 = 0 ∧
      create_undo_script cfg
        (organize_run cfg err folder_of recursive include_hidden st).1 =
        .no_script) ∧
    ((organize_run ⟨["src"], ["src"], true, false⟩ (fun _ => none)
        (fun _ => .ok "Docs") false false
        ⟨⟨[["src"]], [⟨["src"], ⟨"a", ".txt"⟩⟩]⟩, [], [], []⟩).2 = [("Docs", 1)] ∧
     (organize_run ⟨["src"], ["src"], true, false⟩ (fun _ => none)
        (fun _ => .ok "Docs") false false
        ⟨⟨[["src"]], [⟨["src"], ⟨"a", ".txt"⟩⟩]⟩, [], [], []⟩).1.moved_files = []) := by
  constructor
  · intro cfg err folder_of recursive include_hidden st hdry hmv
    have hstate := org_fold_dry_state cfg err folder_of hdry
      (get_files st.fs cfg.source_dir recursive include_hidden) st []
    have hmoved : (organize_run cfg err folder_of recursive include_hidden
        st).1.moved_files = [] := by
      rw [organize_run]
      rw [hstate.2, hmv]
    refine ⟨hmoved, ?_, ?_⟩
    · simp [get_stats, hmoved]
    · simp [create_undo_script, hmoved]
  · exact ⟨by decide, by decide⟩

/-- Witness for C9: the general conjunct applied at a concrete dry-run
configuration with one classified file. -/
theorem C9_dry_run_empty_move_log_witness :
    (⟨["src"], ["src"], true, false⟩ : Config).dry_run = true ∧
    (organize_run ⟨["src"], ["src"], true, false⟩ (fun _ => none)
        (fun _ => .ok "Docs") false false
        ⟨⟨[["src"]], [⟨["src"], ⟨"a", ".txt"⟩⟩]⟩, [], [], []⟩).1.moved_files = [] ∧
    (get_stats (organize_run ⟨["src"], ["src"], true, false⟩ (fun _ => none)
        (fun _ => .ok "Docs") false false
        ⟨⟨[["src"]], [⟨["src"], ⟨"a", ".txt"⟩⟩]⟩, [], [], []⟩).1).1 = 0 ∧
    create_undo_script ⟨["src"], ["src"], true, false⟩
        (organize_run ⟨["src"], ["src"], true, false⟩ (fun _ => none)
          (fun _ => .ok "Docs") false false
          ⟨⟨[["src"]], [⟨["src"], ⟨"a", ".txt"⟩⟩]⟩, [], [], []⟩).1 = .no_script :=
  ⟨rfl,
   C9_dry_run_empty_move_log.1 ⟨["src"], ["src"], true, false⟩ (fun _ => none)
     (fun _ => .ok "Docs") false false
     ⟨⟨[["src"]], [⟨["src"], ⟨"a", ".txt"⟩⟩]⟩, [], [], []⟩ rfl rfl⟩

/-- Claim C10: in live copy mode a successful copy appends its destination
path to the move log exactly as a move does (and the original stays in
place), so the generated undo script later moves the copy back into the
source root where the original still sits, triggering the `_N` suffix policy
and leaving a suffixed duplicate beside the original instead of deleting the
copy or leaving it where it is. -/
theorem C10_copy_mode_undo_duplicates :
    (∀ (cfg : Config) (st : OrgState) (src : FsPath) (folder : String),
      cfg.dry_run = false → cfg.copy_files = true →
      (move_file cfg none st src folder).1.moved_files =
        st.moved_files ++ [find_free st.fs.files (cfg.target_dir ++ [folder]) src.base] ∧
      (src ∈ st.fs.files → src ∈ (move_file cfg none st src folder).1.fs.files)) ∧
    (∀ (source_dir : List String) (fs : Fs) (p : FsPath),
      p ∈ fs.files → p.dir ≠ source_dir →
      (⟨source_dir, p.base⟩ : FsPath) ∈ fs.files →
      nth_candidate source_dir p.base 1 ∉ fs.files →
      fs.files.Nodup →
      undo_step source_dir none fs p =
        (add_file (remove_file fs p) (nth_candidate source_dir p.base 1), true,
          .moved_back p.name) ∧
      (⟨source_dir, p.base⟩ : FsPath) ∈ (undo_step source_dir none fs p).1.files ∧
      nth_candidate source_dir p.base 1 ∈ (undo_step source_dir none fs p).1.files ∧
      p ∉ (undo_step source_dir none fs p).1.files) := by
  constructor
  · intro cfg st src folder hdry hcopy
    rw [move_file_live_ok cfg st src folder hdry]
    refine ⟨rfl, ?_⟩
    intro hmem
    simp only [hcopy, if_true, add_file_files, mkdirp_files]
    exact List.mem_append_left _ hmem
  · intro source_dir fs p hp hdir horig hfree1 hnd
    have hff : find_free fs.files source_dir p.base =
        nth_candidate source_dir p.base 1 :=
      find_free_one fs.files source_dir p.base horig hfree1
    have hstep : undo_step source_dir none fs p =
        (add_file (remove_file fs p) (nth_candidate source_dir p.base 1), true,
          .moved_back p.name) := by
      rw [undo_step, if_pos hp, hff]
    refine ⟨hstep, ?_, ?_, ?_⟩
    · rw [hstep]
      simp only [add_file_files, remove_file_files]
      refine List.mem_append_left _ ?_
      refine (List.mem_erase_of_ne ?_).mpr horig
      intro h
      exact hdir (congrArg FsPath.dir h).symm
    · rw [hstep]
      simp only [add_file_files, remove_file_files]
      exact List.mem_append_right _ (List.mem_singleton.mpr rfl)
    · rw [hstep]
      simp only [add_file_files, remove_file_files]
      intro hmem
      rcases List.mem_append.mp hmem with h1 | h1
      · exact (hnd.mem_erase_iff.mp h1).1 rfl
      · have h2 : p = nth_candidate source_dir p.base 1 := List.mem_singleton.mp h1
        exact hdir (congrArg FsPath.dir h2)

/-- Witness for C10: the undo-after-copy conjunct applied at a concrete
filesystem holding the original `src/a.txt` and its copy `tgt/Docs/a.txt`. -/
theorem C10_copy_mode_undo_duplicates_witness :
    ((⟨["tgt", "Docs"], ⟨"a", ".txt"⟩⟩ : FsPath) ∈
      (Fs.mk [["src"], ["tgt", "Docs"]]
        [⟨["src"], ⟨"a", ".txt"⟩⟩, ⟨["tgt", "Docs"], ⟨"a", ".txt"⟩⟩]).files) ∧
    ((⟨["src"], ⟨"a", ".txt"⟩⟩ : FsPath) ∈
      (undo_step ["src"] none
        (Fs.mk [["src"], ["tgt", "Docs"]]
          [⟨["src"], ⟨"a", ".txt"⟩⟩, ⟨["tgt", "Docs"], ⟨"a", ".txt"⟩⟩])
        ⟨["tgt", "Docs"], ⟨"a", ".txt"⟩⟩).1.files ∧
     nth_candidate ["src"] ⟨"a", ".txt"⟩ 1 ∈
      (undo_step ["src"] none
        (Fs.mk [["src"], ["tgt", "Docs"]]
          [⟨["src"], ⟨"a", ".txt"⟩⟩, ⟨["tgt", "Docs"], ⟨"a", ".txt"⟩⟩])
        ⟨["tgt", "Docs"], ⟨"a", ".txt"⟩⟩).1.files ∧
     (⟨["tgt", "Docs"], ⟨"a", ".txt"⟩⟩ : FsPath) ∉
      (undo_step ["src"] none
        (Fs.mk [["src"], ["tgt", "Docs"]]
          [⟨["src"], ⟨"a", ".txt"⟩⟩, ⟨["tgt", "Docs"], ⟨"a", ".txt"⟩⟩])
        ⟨["tgt", "Docs"], ⟨"a", ".txt"⟩⟩).1.files) :=
  ⟨by decide,
   (C10_copy_mode_undo_duplicates.2 ["src"]
     (Fs.mk [["src"], ["tgt", "Docs"]]
       [⟨["src"], ⟨"a", ".txt"⟩⟩, ⟨["tgt", "Docs"], ⟨"a", ".txt"⟩⟩])
     ⟨["tgt", "Docs"], ⟨"a", ".txt"⟩⟩
     (by decide) (by decide) (by decide) (by decide) (by decide)).2⟩

/-- Claim C7: in dry-run mode a relocation mutates nothing — the filesystem
(directories and files alike) is untouched and the move log grows by
nothing — and running any strategy twice over the unmodified source
directory yields identical classification statistics, with the filesystem
unchanged after each run. -/
theorem C7_dry_run_idempotent :
    ∀ (cfg : Config) (err : FsPath → Option String)
      (folder_of : FsPath → Except String String) (recursive include_hidden : Bool)
      (st : OrgState),
      cfg.dry_run = true →
      (organize_run cfg err folder_of recursive include_hidden st).1.fs = st.fs ∧
      (organize_run cfg err folder_of recursive include_hidden st).1.moved_files =
        st.moved_files ∧
      (organize_run cfg err folder_of recursive include_hidden
          (organize_run cfg err folder_of recursive include_hidden st).1).2 =
        (organize_run cfg err folder_of recursive include_hidden st).2 ∧
      (organize_run cfg err folder_of recursive include_hidden
          (organize_run cfg err folder_of recursive include_hidden st).1).1.fs =
        st.fs := by
  intro cfg err folder_of recursive include_hidden st hdry
  have h1 := org_fold_dry_state cfg err folder_of hdry
    (get_files st.fs cfg.source_dir recursive include_hidden) st []
  have hfs1 : (organize_run cfg err folder_of recursive include_hidden st).1.fs =
      st.fs := by
    rw [organize_run]
    exact h1.1
  have hsame : get_files
      (organize_run cfg err folder_of recursive include_hidden st).1.fs
      cfg.source_dir recursive include_hidden =
      get_files st.fs cfg.source_dir recursive include_hidden := by
    rw [hfs1]
  refine ⟨hfs1, ?_, ?_, ?_⟩
  · rw [organize_run]
    exact h1.2
  · show (organize_fold cfg err folder_of
        ((organize_run cfg err folder_of recursive include_hidden st).1, [])
        (get_files (organize_run cfg err folder_of recursive include_hidden st).1.fs
          cfg.source_dir recursive include_hidden)).2 = _
    rw [hsame]
    rw [org_fold_dry_stats cfg err folder_of hdry
      (get_files st.fs cfg.source_dir recursive include_hidden)
      (organize_run cfg err folder_of recursive include_hidden st).1 st []]
    rfl
  · show (organize_fold cfg err folder_of
        ((organize_run cfg err folder_of recursive include_hidden st).1, [])
        (get_files (organize_run cfg err folder_of recursive include_hidden st).1.fs
          cfg.source_dir recursive include_hidden)).1.fs = _
    rw [hsame]
    rw [(org_fold_dry_state cfg err folder_of hdry
      (get_files st.fs cfg.source_dir recursive include_hidden)
      (organize_run cfg err folder_of recursive include_hidden st).1 []).1]
    exact hfs1

/-- Witness for C7: the theorem applied at a concrete dry-run configuration
over a one-file source directory. -/
theorem C7_dry_run_idempotent_witness :
    (⟨["src"], ["src"], true, false⟩ : Config).dry_run = true ∧
    ((organize_run ⟨["src"], ["src"], true, false⟩ (fun _ => none)
        (fun _ => .ok "Docs") false false
        ⟨⟨[["src"]], [⟨["src"], ⟨"a", ".txt"⟩⟩]⟩, [], [], []⟩).1.fs =
      (⟨⟨[["src"]], [⟨["src"], ⟨"a", ".txt"⟩⟩]⟩, [], [], []⟩ : OrgState).fs ∧
     (organize_run ⟨["src"], ["src"], true, false⟩ (fun _ => none)
        (fun _ => .ok "Docs") false false
        ⟨⟨[["src"]], [⟨["src"], ⟨"a", ".txt"⟩⟩]⟩, [], [], []⟩).1.moved_files =
      (⟨⟨[["src"]], [⟨["src"], ⟨"a", ".txt"⟩⟩]⟩, [], [], []⟩ : OrgState).moved_files ∧
     (organize_run ⟨["src"], ["src"], true, false⟩ (fun _ => none)
        (fun _ => .ok "Docs") false false
        (organize_run ⟨["src"], ["src"], true, false⟩ (fun _ => none)
          (fun _ => .ok "Docs") false false
          ⟨⟨[["src"]], [⟨["src"], ⟨"a", ".txt"⟩⟩]⟩, [], [], []⟩).1).2 =
      (organize_run ⟨["src"], ["src"], true, false⟩ (fun _ => none)
        (fun _ => .ok "Docs") false false
        ⟨⟨[["src"]], [⟨["src"], ⟨"a", ".txt"⟩⟩]⟩, [], [], []⟩).2 ∧
     (organize_run ⟨["src"], ["src"], true, false⟩ (fun _ => none)
        (fun _ => .ok "Docs") false false
        (organize_run ⟨["src"], ["src"], true, false⟩ (fun _ => none)
          (fun _ => .ok "Docs") false false
          ⟨⟨[["src"]], [⟨["src"], ⟨"a", ".txt"⟩⟩]⟩, [], [], []⟩).1).1.fs =
      (⟨⟨[["src"]], [⟨["src"], ⟨"a", ".txt"⟩⟩]⟩, [], [], []⟩ : OrgState).fs) :=
  ⟨rfl,
   C7_dry_run_idempotent ⟨["src"], ["src"], true, false⟩ (fun _ => none)
     (fun _ => .ok "Docs") false false
     ⟨⟨[["src"]], [⟨["src"], ⟨"a", ".txt"⟩⟩]⟩, [], [], []⟩ rfl⟩

/-- Claim C4: the generated undo script processes each logged destination in
logged order; a missing file is skipped with a notice, a raising move is
reported, and in both cases the loop continues; an existing file is moved
into the source root under its destination basename (the collision-adjusted
name, not the original one) using the same `_N` collision policy; and for a
live move-mode run over a clean source root — where the forward pass meets
no collisions — running the script restores every moved file to the source
root under its original name. -/
theorem C4_undo_round_trip :
    (∀ (source_dir : List String) (err : FsPath → Option String)
       (acc : Fs × Nat × List UndoEvent) (p : FsPath) (rest : List FsPath),
      undo_fold source_dir err acc (p :: rest) =
        undo_fold source_dir err
          ((undo_step source_dir (err p) acc.1 p).1,
           acc.2.1 + (if (undo_step source_dir (err p) acc.1 p).2.1 then 1 else 0),
           acc.2.2 ++ [(undo_step source_dir (err p) acc.1 p).2.2]) rest) ∧
    (∀ (source_dir : List String) (err : Option String) (fs : Fs) (p : FsPath),
      p ∉ fs.files → undo_step source_dir err fs p = (fs, false, .not_found p)) ∧
    (∀ (source_dir : List String) (fs : Fs) (p : FsPath) (reason : String),
      p ∈ fs.files →
      undo_step source_dir (some reason) fs p = (fs, false, .failed p reason)) ∧
    (∀ (source_dir : List String) (fs : Fs) (p : FsPath),
      p ∈ fs.files →
      undo_step source_dir none fs p =
        (add_file (remove_file fs p) (find_free fs.files source_dir p.base), true,
          .moved_back p.name)) ∧
    (∀ (cfg : Config) (classify : FsPath → String) (bs : List FileName)
       (st0 : OrgState) (recursive include_hidden : Bool),
      cfg.dry_run = false → cfg.copy_files = false →
      (∀ f : String, cfg.target_dir ++ [f] ≠ cfg.source_dir) →
      bs.Nodup →
      st0.moved_files = [] →
      st0.fs.files = bs.map (fun b => (⟨cfg.source_dir, b⟩ : FsPath)) →
      get_files st0.fs cfg.source_dir recursive include_hidden =
        bs.map (fun b => (⟨cfg.source_dir, b⟩ : FsPath)) →
      (organize_run cfg (fun _ => none) (fun p => .ok (classify p)) recursive
          include_hidden st0).1.moved_files =
        bs.map (fun b =>
          (⟨cfg.target_dir ++ [classify ⟨cfg.source_dir, b⟩], b⟩ : FsPath)) ∧
      (bs ≠ [] →
        create_undo_script cfg
          (organize_run cfg (fun _ => none) (fun p => .ok (classify p)) recursive
            include_hidden st0).1 =
          .script ⟨bs.map (fun b =>
            (⟨cfg.target_dir ++ [classify ⟨cfg.source_dir, b⟩], b⟩ : FsPath)),
            cfg.source_dir⟩) ∧
      (undo_run ⟨(organize_run cfg (fun _ => none) (fun p => .ok (classify p))
            recursive include_hidden st0).1.moved_files, cfg.source_dir⟩
          (fun _ => none)
          (organize_run cfg (fun _ => none) (fun p => .ok (classify p)) recursive
            include_hidden st0).1.fs).1.files =
        bs.map (fun b => (⟨cfg.source_dir, b⟩ : FsPath)) ∧
      (undo_run ⟨(organize_run cfg (fun _ => none) (fun p => .ok (classify p))
            recursive include_hidden st0).1.moved_files, cfg.source_dir⟩
          (fun _ => none)
          (organize_run cfg (fun _ => none) (fun p => .ok (classify p)) recursive
            include_hidden st0).1.fs).2.1 = bs.length) := by
  refine ⟨?_, ?_, ?_, ?_, ?_⟩
  · intro source_dir err acc p rest
    rfl
  · intro source_dir err fs p h
    simp only [undo_step, if_neg h]
  · intro source_dir fs p reason h
    simp only [undo_step, if_pos h]
  · intro source_dir fs p h
    simp only [undo_step, if_pos h]
  · intro cfg classify bs st0 recursive include_hidden hdry hcopy hsep hnd hmv0 hfs0 hget
    obtain ⟨hffs, hfmv⟩ := organize_fold_forward cfg classify hdry hcopy hsep bs [] st0 []
      (by rw [hfs0]; simp) hnd (by simp)
    have hrun_fs : (organize_run cfg (fun _ => none) (fun p => .ok (classify p))
        recursive include_hidden st0).1.fs.files =
        bs.map (fun b =>
          (⟨cfg.target_dir ++ [classify ⟨cfg.source_dir, b⟩], b⟩ : FsPath)) := by
      rw [organize_run, hget]
      simpa using hffs
    have hrun_mv : (organize_run cfg (fun _ => none) (fun p => .ok (classify p))
        recursive include_hidden st0).1.moved_files =
        bs.map (fun b =>
          (⟨cfg.target_dir ++ [classify ⟨cfg.source_dir, b⟩], b⟩ : FsPath)) := by
      rw [organize_run, hget]
      simpa [hmv0] using hfmv
    have hbases : (bs.map (fun b =>
        (⟨cfg.target_dir ++ [classify ⟨cfg.source_dir, b⟩], b⟩ : FsPath))).map
        FsPath.base = bs := by
      rw [List.map_map]
      have hcomp : (FsPath.base ∘ fun b =>
          (⟨cfg.target_dir ++ [classify ⟨cfg.source_dir, b⟩], b⟩ : FsPath)) =
          fun b => b := rfl
      rw [hcomp]
      simp
    obtain ⟨hu1, hu2⟩ := undo_fold_restores cfg.source_dir
      (bs.map (fun b =>
        (⟨cfg.target_dir ++ [classify ⟨cfg.source_dir, b⟩], b⟩ : FsPath)))
      []
      (organize_run cfg (fun _ => none) (fun p => .ok (classify p)) recursive
        include_hidden st0).1.fs
      0 []
      (by rw [hrun_fs]; simp)
      (by
        intro p hp
        obtain ⟨b, _, rfl⟩ := List.mem_map.mp hp
        exact fun h => hsep (classify ⟨cfg.source_dir, b⟩) h)
      (by rw [hbases]; exact hnd)
      (by simp)
    refine ⟨hrun_mv, ?_, ?_, ?_⟩
    · intro hne
      rw [create_undo_script, hrun_mv]
      cases bs with
      | nil => exact absurd rfl hne
      | cons b bs' => simp
    · rw [undo_run]
      simp only [hrun_mv]
      rw [hu1]
      simp [List.map_map]
    · rw [undo_run]
      simp only [hrun_mv]
      rw [hu2]
      simp

/-- Witness for C4: the round-trip conjunct applied to a concrete two-file
live move-mode run (`src/a.txt`, `src/b.txt` organized into `tgt/Docs`) and
its generated undo script. -/
theorem C4_undo_round_trip_witness :
    ([⟨"a", ".txt"⟩, ⟨"b", ".txt"⟩] : List FileName).Nodup ∧
    ((organize_run ⟨["src"], ["tgt"], false, false⟩ (fun _ => none)
        (fun _ => .ok "Docs") false false
        ⟨⟨[["src"]], [⟨["src"], ⟨"a", ".txt"⟩⟩, ⟨["src"], ⟨"b", ".txt"⟩⟩]⟩,
          [], [], []⟩).1.moved_files =
      [⟨["tgt", "Docs"], ⟨"a", ".txt"⟩⟩, ⟨["tgt", "Docs"], ⟨"b", ".txt"⟩⟩] ∧
     (undo_run ⟨(organize_run ⟨["src"], ["tgt"], false, false⟩ (fun _ => none)
          (fun _ => .ok "Docs") false false
          ⟨⟨[["src"]], [⟨["src"], ⟨"a", ".txt"⟩⟩, ⟨["src"], ⟨"b", ".txt"⟩⟩]⟩,
            [], [], []⟩).1.moved_files, ["src"]⟩
        (fun _ => none)
        (organize_run ⟨["src"], ["tgt"], false, false⟩ (fun _ => none)
          (fun _ => .ok "Docs") false false
          ⟨⟨[["src"]], [⟨["src"], ⟨"a", ".txt"⟩⟩, ⟨["src"], ⟨"b", ".txt"⟩⟩]⟩,
            [], [], []⟩).1.fs).1.files =
      [⟨["src"], ⟨"a", ".txt"⟩⟩, ⟨["src"], ⟨"b", ".txt"⟩⟩] ∧
     (undo_run ⟨(organize_run ⟨["src"], ["tgt"], false, false⟩ (fun _ => none)
          (fun _ => .ok "Docs") false false
          ⟨⟨[["src"]], [⟨["src"], ⟨"a", ".txt"⟩⟩, ⟨["src"], ⟨"b", ".txt"⟩⟩]⟩,
            [], [], []⟩).1.moved_files, ["src"]⟩
        (fun _ => none)
        (organize_run ⟨["src"], ["tgt"], false, false⟩ (fun _ => none)
          (fun _ => .ok "Docs") false false
          ⟨⟨[["src"]], [⟨["src"], ⟨"a", ".txt"⟩⟩, ⟨["src"], ⟨"b", ".txt"⟩⟩]⟩,
            [], [], []⟩).1.fs).2.1 = 2) := by
  refine ⟨by decide, ?_⟩
  have h := C4_undo_round_trip.2.2.2.2 ⟨["src"], ["tgt"], false, false⟩
    (fun _ => "Docs") [⟨"a", ".txt"⟩, ⟨"b", ".txt"⟩]
    ⟨⟨[["src"]], [⟨["src"], ⟨"a", ".txt"⟩⟩, ⟨["src"], ⟨"b", ".txt"⟩⟩]⟩, [], [], []⟩
    false false rfl rfl
    (by
      intro f hEq
      have h2 := congrArg List.length hEq
      simp at h2)
    (by decide) rfl rfl (by decide)
  exact ⟨h.1, h.2.2.1, h.2.2.2⟩
